import Mathlib

/-!
Verification development for the Phase-2 MySQL physical-model generator.

The Python sources embedded here are `src/generators/type_mapper.py`,
`src/generators/mysql_generator.py` and `src/erd/physical_erd.py`.
Python strings are modelled as Lean `String`s (lists of characters);
`str.upper` and `str.isalnum` are modelled on their ASCII fragment, which
covers every character the generators themselves introduce.
-/

/-- ASCII model of Python `str.upper()`: upper-case each character. -/
def pyUpper (s : String) : String :=
  String.mk (s.data.map Char.toUpper)

/-- Model of Python `sep.join(parts)`. -/
def pyJoin (sep : String) : List String → String
  | [] => ""
  | [x] => x
  | x :: y :: xs => x ++ sep ++ pyJoin sep (y :: xs)

/-- Python truthiness of an optional string field: `None` and the empty
string are falsy, any other string is truthy. -/
def optTruthy : Option String → Bool
  | none => false
  | some s => !(s == "")

/-- Little-endian decimal digit characters of `n`, with explicit fuel so the
recursion is structural (the fuel is always instantiated with `n` itself). -/
def digitsFuel : Nat → Nat → List Char
  | 0, _ => []
  | fuel + 1, n => if n == 0 then [] else Nat.digitChar (n % 10) :: digitsFuel fuel (n / 10)

/-- Model of Python decimal formatting of a nonnegative integer
(`f"{idx}"` in the generator). -/
def natDecimal (n : Nat) : String :=
  if n == 0 then "0" else String.mk (digitsFuel n n).reverse

/-- `Column` of the Schema Model (src/models/metadata.py, reconstructed from
the spec data model; fields mirror the constructor calls in main.py/tests). -/
structure Column where
  name : String
  data_type : String
  is_primary_key : Bool := false
  is_foreign_key : Bool := false
  is_nullable : Bool := true
  is_unique : Bool := false
  default_value : Option String := none
  references_table : Option String := none
  references_column : Option String := none
deriving DecidableEq, Inhabited

/-- `Table` of the Schema Model: a name and the columns in declaration order. -/
structure Table where
  name : String
  columns : List Column
deriving DecidableEq, Inhabited

/-- Modelled from the spec: the derived view `Table.primary_keys` lives in
src/models/metadata.py, which is absent from the snapshot; per spec section 3
it is the columns with `is_primary_key` true, in column order. -/
def Table.primary_keys (t : Table) : List Column :=
  t.columns.filter (fun c => c.is_primary_key)

/-- Modelled from the spec: the derived view `Table.foreign_keys` lives in
src/models/metadata.py, which is absent from the snapshot; per spec section 3
it is the columns with `is_foreign_key` true, in column order. -/
def Table.foreign_keys (t : Table) : List Column :=
  t.columns.filter (fun c => c.is_foreign_key)

/-- The Schema Model: session identifier plus the tables in insertion order
(Python keeps them in an insertion-ordered dict keyed by table name). -/
structure Metadata where
  file_id : String
  tables : List Table
deriving DecidableEq, Inhabited

/-- The fixed abstract-to-MySQL type table `MYSQL_TYPE_MAP` of
src/generators/type_mapper.py, in source order. -/
def MYSQL_TYPE_MAP : List (String × String) := [
  ("INTEGER", "INT"),
  ("INT", "INT"),
  ("BIGINT", "BIGINT"),
  ("SMALLINT", "SMALLINT"),
  ("VARCHAR", "VARCHAR(255)"),
  ("TEXT", "TEXT"),
  ("CHAR", "CHAR"),
  ("BOOLEAN", "BOOLEAN"),
  ("BOOL", "BOOLEAN"),
  ("DATE", "DATE"),
  ("TIMESTAMP", "TIMESTAMP"),
  ("DATETIME", "DATETIME"),
  ("DECIMAL", "DECIMAL(18,2)"),
  ("NUMERIC", "DECIMAL(18,2)"),
  ("FLOAT", "FLOAT"),
  ("DOUBLE", "DOUBLE"),
  ("JSON", "JSON")]

/-- `map_to_mysql_type` of src/generators/type_mapper.py:
`MYSQL_TYPE_MAP.get(generic_type.upper(), 'VARCHAR(255)')`. -/
def map_to_mysql_type (generic_type : String) : String :=
  (MYSQL_TYPE_MAP.lookup (pyUpper generic_type)).getD "VARCHAR(255)"

/-- Modelled from the spec: `SQLGenerator._sanitize_name` lives in
src/generators/base.py, which is absent from the snapshot; per spec section
4.2 every character that is not alphanumeric or underscore is replaced with
underscore, and case is preserved for DDL identifiers. -/
def sanitize_ddl (name : String) : String :=
  String.mk (name.data.map (fun c => if c.isAlphanum || c == '_' then c else '_'))

/-- `PhysicalERDGenerator._sanitize_name` of src/erd/physical_erd.py:
the same character substitution followed by `.upper()`. -/
def sanitize_erd (name : String) : String :=
  pyUpper (String.mk (name.data.map (fun c => if c.isAlphanum || c == '_' then c else '_')))

/-- The AUTO_INCREMENT allow-list, written inline as
`['INTEGER', 'INT', 'BIGINT']` at both use sites in the sources. -/
def AUTO_INCREMENT_TYPES : List String := ["INTEGER", "INT", "BIGINT"]

/-- The `parts` list built by `MySQLGenerator._generate_column_definition`
before it is space-joined. -/
def column_parts (column : Column) : List String :=
  let parts := [sanitize_ddl column.name, map_to_mysql_type column.data_type]
  let parts := if column.is_primary_key && AUTO_INCREMENT_TYPES.contains (pyUpper column.data_type)
    then parts ++ ["AUTO_INCREMENT"] else parts
  let parts := if !column.is_nullable then parts ++ ["NOT NULL"] else parts
  let parts := if column.is_unique then parts ++ ["UNIQUE"] else parts
  if optTruthy column.default_value
    then parts ++ ["DEFAULT " ++ column.default_value.getD ""] else parts

/-- `MySQLGenerator._generate_column_definition`: `" ".join(parts)`. -/
def _generate_column_definition (column : Column) : String :=
  pyJoin " " (column_parts column)

/-- The `PRIMARY KEY (...)` constraint line appended by
`MySQLGenerator._generate_create_table` when the table has primary keys. -/
def pk_constraint (table : Table) : String :=
  "    PRIMARY KEY (" ++ pyJoin ", " (table.primary_keys.map (fun pk => sanitize_ddl pk.name)) ++ ")"

/-- The `col_defs` list of `MySQLGenerator._generate_create_table`:
one indented definition per column, plus the primary-key constraint when
`table.primary_keys` is truthy. -/
def create_table_col_defs (table : Table) : List String :=
  let col_defs := table.columns.map (fun col => "    " ++ _generate_column_definition col)
  if table.primary_keys.isEmpty then col_defs else col_defs ++ [pk_constraint table]

/-- `MySQLGenerator._generate_create_table`. -/
def _generate_create_table (table : Table) : String :=
  pyJoin "\n" ["CREATE TABLE " ++ sanitize_ddl table.name ++ " (",
    pyJoin ",\n" (create_table_col_defs table),
    ") ENGINE=InnoDB DEFAULT CHARSET=utf8mb4;"]

/-- The reference-completeness check of `_generate_foreign_keys`:
the column is skipped unless both `references_table` and
`references_column` are truthy. -/
def hasCompleteRef (c : Column) : Bool :=
  optTruthy c.references_table && optTruthy c.references_column

/-- The `fk_name` local of `_generate_foreign_keys`:
`f"fk_{self._sanitize_name(table.name)}_{idx}"`. -/
def fk_name (table : Table) (idx : Nat) : String :=
  "fk_" ++ sanitize_ddl table.name ++ "_" ++ natDecimal idx

/-- The ALTER TABLE statement text built by `_generate_foreign_keys` for one
qualifying foreign-key column at enumeration index `idx`. -/
def fk_statement (table : Table) (idx : Nat) (fk_col : Column) : String :=
  "ALTER TABLE " ++ sanitize_ddl table.name ++ " ADD CONSTRAINT " ++ fk_name table idx ++
    " FOREIGN KEY (" ++ sanitize_ddl fk_col.name ++ ") REFERENCES " ++
    sanitize_ddl (fk_col.references_table.getD "") ++ "(" ++
    sanitize_ddl (fk_col.references_column.getD "") ++ ") ON DELETE CASCADE ON UPDATE CASCADE;"

/-- `MySQLGenerator._generate_foreign_keys`: `enumerate(table.foreign_keys, 1)`
with a `continue` on incomplete references (the index still advances). -/
def _generate_foreign_keys (table : Table) : List String :=
  (List.enumFrom 1 table.foreign_keys).filterMap (fun p =>
    if hasCompleteRef p.2 then some (fk_statement table p.1 p.2) else none)

/-- The constraint names carried by the statements of
`_generate_foreign_keys`, in emission order. -/
def emitted_fk_names (table : Table) : List String :=
  (List.enumFrom 1 table.foreign_keys).filterMap (fun p =>
    if hasCompleteRef p.2 then some (fk_name table p.1) else none)

/-- The CREATE INDEX statement of `MySQLGenerator._generate_indexes` for one
foreign-key column. -/
def index_statement (table : Table) (fk_col : Column) : String :=
  "CREATE INDEX idx_" ++ sanitize_ddl table.name ++ "_" ++ sanitize_ddl fk_col.name ++
    " ON " ++ sanitize_ddl table.name ++ "(" ++ sanitize_ddl fk_col.name ++ ");"

/-- `MySQLGenerator._generate_indexes`: one statement per foreign-key column,
with no reference-completeness check. -/
def _generate_indexes (table : Table) : List String :=
  table.foreign_keys.map (index_statement table)

/-- Modelled from the spec: the script assembly (`SQLGenerator.generate_ddl`)
lives in src/generators/base.py, which is absent from the snapshot; per the
spec section 4.2 output contract the full script is the concatenation of all
CREATE TABLE statements, then all ALTER TABLE foreign-key statements, then
all CREATE INDEX statements, each statement separated for readability
(modelled as a blank line between statements). -/
def generate_ddl (md : Metadata) : String :=
  pyJoin "\n\n" (md.tables.map _generate_create_table ++
    (md.tables.map _generate_foreign_keys).flatten ++
    (md.tables.map _generate_indexes).flatten)

/-- The type token of `PhysicalERDGenerator._generate_column_line`:
`mysql_type.replace('(', '_').replace(')', '').replace(',', '_')`.
The three chained single-character replaces never produce a character that a
later replace targets, so they equal one per-character pass. -/
def clean_type (t : String) : String :=
  String.mk (t.data.foldr (fun c acc =>
    if c == '(' then '_' :: acc
    else if c == ')' then acc
    else if c == ',' then '_' :: acc
    else c :: acc) [])

/-- The `constraints` list built by
`PhysicalERDGenerator._generate_column_line`. -/
def erd_constraints (col : Column) : List String :=
  let constraints : List String := []
  let constraints := if col.is_primary_key && AUTO_INCREMENT_TYPES.contains (pyUpper col.data_type)
    then constraints ++ ["AUTO_INCREMENT"] else constraints
  let constraints := if !col.is_nullable then constraints ++ ["NOT NULL"] else constraints
  let constraints := if col.is_unique then constraints ++ ["UNIQUE"] else constraints
  let constraints := if optTruthy col.default_value
    then constraints ++ ["DEFAULT " ++ col.default_value.getD ""] else constraints
  if col.is_foreign_key then constraints ++ ["INDEX"] else constraints

/-- The key marker of `_generate_column_line`: `PK` beats `FK`. -/
def key_marker (col : Column) : String :=
  if col.is_primary_key then " PK" else if col.is_foreign_key then " FK" else ""

/-- `PhysicalERDGenerator._generate_column_line`. -/
def _generate_column_line (col : Column) : String :=
  let mysql_type_clean := clean_type (map_to_mysql_type col.data_type)
  let col_name := sanitize_erd col.name
  let constraints := erd_constraints col
  let constraint_str := if constraints.isEmpty then ""
    else " \"" ++ pyJoin ", " constraints ++ "\""
  mysql_type_clean ++ " " ++ col_name ++ key_marker col ++ constraint_str

/-- `PhysicalERDGenerator._generate_entity`: the entity block of one table. -/
def _generate_entity (table : Table) : String :=
  "    " ++ sanitize_erd table.name ++ " \x7b\n" ++
    String.join (table.columns.map (fun col => "        " ++ _generate_column_line col ++ "\n")) ++
    "    \x7d\n\n"

/-- One relationship line of `PhysicalERDGenerator._generate_relationships`. -/
def relationship_line (table : Table) (fk_col : Column) : String :=
  "    " ++ sanitize_erd (fk_col.references_table.getD "") ++ " ||--o\x7b " ++
    sanitize_erd table.name ++ " : \"FK, ON DELETE CASCADE\"\n"

/-- The relationship lines one table contributes: its foreign-key columns
whose `references_table` is truthy (`references_column` is not consulted). -/
def relationship_lines (table : Table) : List String :=
  table.foreign_keys.filterMap (fun fk_col =>
    if optTruthy fk_col.references_table then some (relationship_line table fk_col) else none)

/-- `PhysicalERDGenerator._generate_relationships`. -/
def _generate_relationships (table : Table) : String :=
  String.join (relationship_lines table)

/-- `PhysicalERDGenerator.generate_mermaid`: header, then every entity block
in table order, then every relationship line in table order. -/
def generate_mermaid (md : Metadata) : String :=
  "erDiagram\n\n" ++ String.join (md.tables.map _generate_entity) ++
    String.join (md.tables.map _generate_relationships)

example : map_to_mysql_type "integer" = "INT" := by decide
example : map_to_mysql_type "bizarre" = "VARCHAR(255)" := by decide
example : sanitize_erd "my table!" = "MY_TABLE_" := by decide
example : natDecimal 12 = "12" := by decide
example : clean_type "DECIMAL(18,2)" = "DECIMAL_18_2" := by decide
example : pyJoin ", " ["a", "b", "c"] = "a, b, c" := by decide

/-- A character survives sanitization unchanged exactly when it is ASCII
alphanumeric or an underscore. -/
def goodChar (c : Char) : Bool :=
  c.isAlphanum || c == '_'

theorem toNat_ofNat_valid (n : Nat) (h : n.isValidChar) : (Char.ofNat n).toNat = n := by
  simp only [Char.ofNat, dif_pos h, Char.ofNatAux, Char.toNat]
  rfl

theorem isLower_iff (c : Char) : c.isLower = true ↔ 97 ≤ c.toNat ∧ c.toNat ≤ 122 := by
  simp [Char.isLower, Char.toNat, UInt32.le_def, BitVec.le_def]
  exact Iff.rfl

theorem isUpper_iff (c : Char) : c.isUpper = true ↔ 65 ≤ c.toNat ∧ c.toNat ≤ 90 := by
  simp [Char.isUpper, Char.toNat, UInt32.le_def, BitVec.le_def]
  exact Iff.rfl

theorem isDigit_iff (c : Char) : c.isDigit = true ↔ 48 ≤ c.toNat ∧ c.toNat ≤ 57 := by
  simp [Char.isDigit, Char.toNat, UInt32.le_def, BitVec.le_def]
  exact Iff.rfl

theorem beq_underscore_iff (c : Char) : (c == '_') = true ↔ c.toNat = 95 := by
  constructor
  · intro h
    have hc : c = '_' := beq_iff_eq.mp h
    subst hc; rfl
  · intro h
    have hv : c.val = ('_' : Char).val := UInt32.ext_iff.mpr h
    exact beq_iff_eq.mpr (Char.eq_of_val_eq hv)

theorem isAlphanum_iff (c : Char) : c.isAlphanum = true ↔
    (65 ≤ c.toNat ∧ c.toNat ≤ 90) ∨ (97 ≤ c.toNat ∧ c.toNat ≤ 122) ∨
    (48 ≤ c.toNat ∧ c.toNat ≤ 57) := by
  simp only [Char.isAlphanum, Char.isAlpha, Bool.or_eq_true]
  rw [isLower_iff, isUpper_iff, isDigit_iff]
  tauto

theorem toUpper_toNat (c : Char) :
    c.toUpper.toNat = if 97 ≤ c.toNat ∧ c.toNat ≤ 122 then c.toNat - 32 else c.toNat := by
  unfold Char.toUpper
  by_cases h : 97 ≤ c.toNat ∧ c.toNat ≤ 122
  · rw [if_pos h, if_pos h]
    exact toNat_ofNat_valid _ (Or.inl (by omega))
  · rw [if_neg h, if_neg h]

theorem toUpper_idem (c : Char) : c.toUpper.toUpper = c.toUpper := by
  have h1 := toUpper_toNat c
  have h2 := toUpper_toNat c.toUpper
  apply Char.eq_of_val_eq
  apply UInt32.ext_iff.mpr
  show c.toUpper.toUpper.toNat = c.toUpper.toNat
  by_cases h : 97 ≤ c.toNat ∧ c.toNat ≤ 122
  · rw [if_pos h] at h1
    rw [h2, if_neg (by omega)]
  · rw [if_neg h] at h1
    rw [h2, if_neg (by omega)]

theorem goodChar_toUpper (c : Char) (h : goodChar c = true) : goodChar c.toUpper = true := by
  unfold goodChar at h ⊢
  rw [Bool.or_eq_true, isAlphanum_iff, beq_underscore_iff] at h ⊢
  rw [toUpper_toNat]
  by_cases hl : 97 ≤ c.toNat ∧ c.toNat ≤ 122 <;> simp [hl] <;> omega

theorem string_data_append (s t : String) : (s ++ t).data = s.data ++ t.data := rfl

theorem string_eq_of_data (s t : String) (h : s.data = t.data) : s = t := by
  cases s; cases t; exact congrArg String.mk h

theorem str_append_cancel (p x y : String) (h : p ++ x = p ++ y) : x = y := by
  apply string_eq_of_data
  have hd : p.data ++ x.data = p.data ++ y.data := by
    rw [← string_data_append, ← string_data_append, h]
  exact List.append_cancel_left hd

theorem map_congr_mem {α β : Type} (f g : α → β) (l : List α) (h : ∀ a ∈ l, f a = g a) :
    l.map f = l.map g := by
  induction l with
  | nil => rfl
  | cons c t ih =>
    have hc : f c = g c := h c (List.mem_cons_self c t)
    have ht : ∀ a ∈ t, f a = g a := fun a ha => h a (List.mem_cons_of_mem c ha)
    simp [hc, ih ht]

theorem map_eq_self {α : Type} (f : α → α) (l : List α) (h : ∀ a ∈ l, f a = a) :
    l.map f = l := by
  have := map_congr_mem f id l h
  simpa using this

theorem goodChar_subst (c : Char) :
    goodChar (if c.isAlphanum || c == '_' then c else '_') = true := by
  by_cases h : (c.isAlphanum || c == '_') = true
  · rw [if_pos h]; exact h
  · rw [if_neg h]; decide

theorem subst_of_good (c : Char) (h : goodChar c = true) :
    (if c.isAlphanum || c == '_' then c else '_') = c := if_pos h

theorem sanitize_ddl_data (s : String) :
    (sanitize_ddl s).data = s.data.map (fun c => if c.isAlphanum || c == '_' then c else '_') := rfl

theorem sanitize_erd_data (s : String) :
    (sanitize_erd s).data =
      (s.data.map (fun c => if c.isAlphanum || c == '_' then c else '_')).map Char.toUpper := rfl

theorem mem_sanitize_ddl_good (s : String) : ∀ c ∈ (sanitize_ddl s).data, goodChar c = true := by
  intro c hc
  rw [sanitize_ddl_data] at hc
  obtain ⟨a, _, rfl⟩ := List.mem_map.mp hc
  exact goodChar_subst a

theorem mem_sanitize_erd_good (s : String) :
    ∀ c ∈ (sanitize_erd s).data, goodChar c = true ∧ c.toUpper = c := by
  intro c hc
  rw [sanitize_erd_data] at hc
  obtain ⟨a, ha, rfl⟩ := List.mem_map.mp hc
  obtain ⟨b, _, rfl⟩ := List.mem_map.mp ha
  exact ⟨goodChar_toUpper _ (goodChar_subst b), toUpper_idem _⟩

theorem sanitize_ddl_idem (x : String) : sanitize_ddl (sanitize_ddl x) = sanitize_ddl x := by
  apply string_eq_of_data
  rw [sanitize_ddl_data (sanitize_ddl x)]
  exact map_eq_self _ _ (fun c hc => subst_of_good c (mem_sanitize_ddl_good x c hc))

theorem sanitize_erd_idem (x : String) : sanitize_erd (sanitize_erd x) = sanitize_erd x := by
  apply string_eq_of_data
  rw [sanitize_erd_data (sanitize_erd x)]
  rw [map_eq_self _ _ (fun c hc => subst_of_good c (mem_sanitize_erd_good x c hc).1)]
  exact map_eq_self _ _ (fun c hc => (mem_sanitize_erd_good x c hc).2)

theorem pyUpper_idem (s : String) : pyUpper (pyUpper s) = pyUpper s := by
  apply string_eq_of_data
  show (s.data.map Char.toUpper).map Char.toUpper = s.data.map Char.toUpper
  rw [List.map_map]
  exact map_congr_mem _ _ _ (fun a _ => toUpper_idem a)

theorem lookup_mem {l : List (String × String)} {k v : String}
    (h : l.lookup k = some v) : v ∈ l.map Prod.snd := by
  induction l with
  | nil => simp [List.lookup] at h
  | cons p t ih =>
    rw [List.lookup] at h
    by_cases hk : (k == p.1) = true
    · simp [hk] at h; simp [← h]
    · simp [hk] at h
      exact List.mem_cons_of_mem _ (ih h)

theorem lookup_eq_none {l : List (String × String)} {k : String}
    (h : k ∉ l.map Prod.fst) : l.lookup k = none := by
  induction l with
  | nil => rfl
  | cons p t ih =>
    have h1 : ¬ (k = p.1) := fun he => h (by simp [he])
    have h2 : k ∉ t.map Prod.fst := fun hm => h (by simp at hm ⊢; right; exact hm)
    rw [List.lookup]
    have hb : (k == p.1) = false := beq_false_of_ne h1
    rw [hb]
    exact ih h2

theorem map_type_codomain (s : String) :
    map_to_mysql_type s ∈ MYSQL_TYPE_MAP.map Prod.snd ∨ map_to_mysql_type s = "VARCHAR(255)" := by
  unfold map_to_mysql_type
  cases h : MYSQL_TYPE_MAP.lookup (pyUpper s) with
  | none => right; rfl
  | some v => left; simpa using lookup_mem h

theorem map_type_ne_auto_increment (s : String) : map_to_mysql_type s ≠ "AUTO_INCREMENT" := by
  rcases map_type_codomain s with h | h
  · intro he; rw [he] at h; revert h; decide
  · rw [h]; decide

theorem map_type_head (s : String) : (map_to_mysql_type s).data.head? ≠ some 'K' := by
  have hall : ∀ v ∈ MYSQL_TYPE_MAP.map Prod.snd, v.data.head? ≠ some 'K' := by decide
  rcases map_type_codomain s with h | h
  · exact hall _ h
  · rw [h]; decide

theorem map_type_not_K_cons (s : String) (rest : List Char)
    (h : (map_to_mysql_type s).data = 'K' :: rest) : False := by
  have := map_type_head s
  rw [h] at this
  exact this rfl

theorem map_type_ne_nil (s : String) : (map_to_mysql_type s).data ≠ [] := by
  have hall : ∀ v ∈ MYSQL_TYPE_MAP.map Prod.snd, v.data ≠ [] := by decide
  rcases map_type_codomain s with h | h
  · exact hall _ h
  · rw [h]; decide

theorem pyJoin_cons (sep x : String) (l : List String) (h : l ≠ []) :
    pyJoin sep (x :: l) = x ++ sep ++ pyJoin sep l := by
  cases l with
  | nil => exact absurd rfl h
  | cons y t => rfl

theorem mem_pyJoin_parts (sep : String) (l : List String) (x : String) (h : x ∈ l) :
    ∃ a b, (pyJoin sep l).data = a ++ x.data ++ b := by
  induction l with
  | nil => cases h
  | cons y t ih =>
    cases t with
    | nil =>
      have hx : x = y := by simpa using h
      subst hx
      exact ⟨[], [], by simp [pyJoin]⟩
    | cons z t' =>
      rcases List.mem_cons.mp h with hxy | hxt
      · subst hxy
        refine ⟨[], sep.data ++ (pyJoin sep (z :: t')).data, ?_⟩
        rw [pyJoin_cons sep x (z :: t') (by simp)]
        simp [string_data_append, List.append_assoc]
      · obtain ⟨a, b, hab⟩ := ih hxt
        refine ⟨y.data ++ sep.data ++ a, b, ?_⟩
        rw [pyJoin_cons sep y (z :: t') (by simp)]
        simp [string_data_append, hab, List.append_assoc]

/-- Decimal value of a little-endian digit-character list, used to show that
`natDecimal` is injective. -/
def valDigits : List Char → Nat
  | [] => 0
  | c :: cs => (c.toNat - 48) + 10 * valDigits cs

theorem charVal_digitChar : ∀ d < 10, (Nat.digitChar d).toNat - 48 = d := by decide

theorem valDigits_digitsFuel : ∀ fuel n, n ≤ fuel → valDigits (digitsFuel fuel n) = n := by
  intro fuel
  induction fuel with
  | zero =>
    intro n hn
    have : n = 0 := Nat.le_zero.mp hn
    subst this; rfl
  | succ f ih =>
    intro n hn
    by_cases h0 : n = 0
    · subst h0; rfl
    · have hb : (n == 0) = false := by simp [h0]
      rw [digitsFuel, hb]
      simp only [Bool.false_eq_true, if_false, valDigits]
      have hdiv : n / 10 ≤ f := by
        have : n / 10 < n := Nat.div_lt_self (Nat.pos_of_ne_zero h0) (by omega)
        omega
      rw [ih (n / 10) hdiv]
      have hmod : n % 10 < 10 := Nat.mod_lt _ (by omega)
      rw [charVal_digitChar (n % 10) hmod]
      omega

theorem natDecimal_zero : natDecimal 0 = "0" := rfl

theorem natDecimal_pos_data (n : Nat) (h : n ≠ 0) :
    (natDecimal n).data = (digitsFuel n n).reverse := by
  have hb : (n == 0) = false := by simp [h]
  unfold natDecimal
  rw [hb]
  simp only [Bool.false_eq_true, if_false]

theorem valDigits_rev_natDecimal (n : Nat) :
    valDigits ((natDecimal n).data.reverse) = n := by
  by_cases h : n = 0
  · subst h; rfl
  · rw [natDecimal_pos_data n h, List.reverse_reverse]
    exact valDigits_digitsFuel n n (Nat.le_refl n)

theorem natDecimal_inj (n m : Nat) (h : natDecimal n = natDecimal m) : n = m := by
  have h1 := congrArg (fun s : String => valDigits s.data.reverse) h
  simp only at h1
  rw [valDigits_rev_natDecimal, valDigits_rev_natDecimal] at h1
  exact h1

theorem fk_name_inj (table : Table) (i j : Nat) (h : fk_name table i = fk_name table j) :
    i = j := by
  unfold fk_name at h
  exact natDecimal_inj i j (str_append_cancel _ _ _ h)

theorem filterMap_ite {α β : Type} (P : α → Bool) (g : α → β) (l : List α) :
    l.filterMap (fun a => if P a then some (g a) else none) = (l.filter P).map g := by
  induction l with
  | nil => rfl
  | cons c t ih =>
    rw [List.filterMap_cons, List.filter_cons]
    by_cases hc : P c = true
    · rw [if_pos hc, if_pos (by simpa using hc), List.map_cons, ih]
    · rw [if_neg hc, if_neg (by simpa using hc), ih]

/-- The `(index, column)` pairs of `enumerate(table.foreign_keys, 1)` that
survive the reference-completeness check. -/
def qualifying_fk_pairs (table : Table) : List (Nat × Column) :=
  (List.enumFrom 1 table.foreign_keys).filter (fun p => hasCompleteRef p.2)

theorem generate_fk_eq (table : Table) :
    _generate_foreign_keys table =
      (qualifying_fk_pairs table).map (fun p => fk_statement table p.1 p.2) := by
  unfold _generate_foreign_keys qualifying_fk_pairs
  exact filterMap_ite (fun p : Nat × Column => hasCompleteRef p.2)
    (fun p : Nat × Column => fk_statement table p.1 p.2) _

theorem emitted_names_eq (table : Table) :
    emitted_fk_names table =
      (qualifying_fk_pairs table).map (fun p => fk_name table p.1) := by
  unfold emitted_fk_names qualifying_fk_pairs
  exact filterMap_ite (fun p : Nat × Column => hasCompleteRef p.2)
    (fun p : Nat × Column => fk_name table p.1) _

theorem emitted_fk_names_nodup (table : Table) : (emitted_fk_names table).Nodup := by
  rw [emitted_names_eq]
  have hfst : ((qualifying_fk_pairs table).map Prod.fst).Nodup := by
    have hsub : List.Sublist (qualifying_fk_pairs table)
        (List.enumFrom 1 table.foreign_keys) := List.filter_sublist _
    have henum : ((List.enumFrom 1 table.foreign_keys).map Prod.fst).Nodup := by
      rw [List.enumFrom_map_fst]
      exact List.nodup_range' 1 table.foreign_keys.length
    exact henum.sublist (hsub.map Prod.fst)
  have hmm : (qualifying_fk_pairs table).map (fun p => fk_name table p.1) =
      ((qualifying_fk_pairs table).map Prod.fst).map (fk_name table) := by
    rw [List.map_map]
    rfl
  rw [hmm]
  exact hfst.map (fun i j hij => fk_name_inj table i j hij)

theorem fk_statement_contains_name (table : Table) (idx : Nat) (c : Column) :
    ∃ a b, (fk_statement table idx c).data = a ++ (fk_name table idx).data ++ b := by
  refine ⟨("ALTER TABLE " ++ sanitize_ddl table.name ++ " ADD CONSTRAINT ").data,
    (" FOREIGN KEY (" ++ sanitize_ddl c.name ++ ") REFERENCES " ++
      sanitize_ddl (c.references_table.getD "") ++ "(" ++
      sanitize_ddl (c.references_column.getD "") ++
      ") ON DELETE CASCADE ON UPDATE CASCADE;").data, ?_⟩
  simp [fk_statement, string_data_append, List.append_assoc]

theorem emitted_fk_names_positions (table : Table) :
    ∀ nm ∈ emitted_fk_names table, ∃ i, i < table.foreign_keys.length ∧
      hasCompleteRef (table.foreign_keys.getD i default) = true ∧
      nm = fk_name table (i + 1) := by
  intro nm hnm
  rw [emitted_names_eq] at hnm
  obtain ⟨p, hp, rfl⟩ := List.mem_map.mp hnm
  unfold qualifying_fk_pairs at hp
  have hq : hasCompleteRef p.2 = true := by
    have hq0 := List.of_mem_filter hp
    simpa using hq0
  have hpe : p ∈ List.enumFrom 1 table.foreign_keys := List.mem_of_mem_filter hp
  obtain ⟨i, x⟩ := p
  rw [List.mk_mem_enumFrom_iff_le_and_getElem?_sub] at hpe
  obtain ⟨h1, h2⟩ := hpe
  have hlt : i - 1 < table.foreign_keys.length := (List.getElem?_eq_some.mp h2).1
  refine ⟨i - 1, hlt, ?_, ?_⟩
  · have hg : table.foreign_keys.getD (i - 1) default = x := by
      rw [List.getD_eq_getElem?_getD, h2]
      rfl
    rw [hg]
    exact hq
  · have hi : i - 1 + 1 = i := by omega
    rw [hi]

/-- C1 (amended): emitted foreign-key constraint names are deterministic and
unique within a table, and each is derived from the table name plus the
1-based position of its column in the table's foreign-key-flagged column
list, where every foreign-key-flagged column consumes an index whether or
not it passes the reference-completeness check. -/
theorem C1_fk_constraint_names (table : Table) :
    (emitted_fk_names table).Nodup ∧
    _generate_foreign_keys table =
      ((List.enumFrom 1 table.foreign_keys).filter (fun p => hasCompleteRef p.2)).map
        (fun p => fk_statement table p.1 p.2) ∧
    emitted_fk_names table =
      ((List.enumFrom 1 table.foreign_keys).filter (fun p => hasCompleteRef p.2)).map
        (fun p => fk_name table p.1) ∧
    (∀ nm ∈ emitted_fk_names table, ∃ i, i < table.foreign_keys.length ∧
      hasCompleteRef (table.foreign_keys.getD i default) = true ∧
      nm = fk_name table (i + 1)) ∧
    (∀ idx c, ∃ a b, (fk_statement table idx c).data = a ++ (fk_name table idx).data ++ b) :=
  ⟨emitted_fk_names_nodup table, generate_fk_eq table, emitted_names_eq table,
    emitted_fk_names_positions table, fun idx c => fk_statement_contains_name table idx c⟩

/-- A table whose first foreign-key column fails the reference-completeness
check (no `references_column`) while its second passes it. -/
def fkDemoTable : Table := { name := "t", columns := [
  { name := "a", data_type := "INT", is_foreign_key := true, references_table := some "p" },
  { name := "b", data_type := "INT", is_foreign_key := true, references_table := some "p",
    references_column := some "id" }] }

/-- The constraint-name numbering as the claim words it: a 1-based sequential
index over only the foreign-key columns that pass the reference-completeness
check. Written from the spec sentence, for comparison with the source-derived
`emitted_fk_names`. -/
def spec_fk_names (table : Table) : List String :=
  (List.enumFrom 1 (table.foreign_keys.filter (fun c => hasCompleteRef c))).map
    (fun p => fk_name table p.1)

/-- C1 counterexample: on `fkDemoTable` the code numbers the sole emitted
constraint `fk_t_2` (the incomplete first column still consumed index 1),
while the claim's counting would name it `fk_t_1`. -/
theorem C1_counterexample :
    emitted_fk_names fkDemoTable = ["fk_t_2"] ∧
    spec_fk_names fkDemoTable = ["fk_t_1"] ∧
    emitted_fk_names fkDemoTable ≠ spec_fk_names fkDemoTable := by decide

/-- Witness for C1: the amended theorem applied to `fkDemoTable`, giving the
concrete position behind the emitted name `fk_t_2`. -/
theorem C1_fk_constraint_names_witness :
    ∃ i, i < fkDemoTable.foreign_keys.length ∧
      hasCompleteRef (fkDemoTable.foreign_keys.getD i default) = true ∧
      "fk_t_2" = fk_name fkDemoTable (i + 1) :=
  (C1_fk_constraint_names fkDemoTable).2.2.2.1 "fk_t_2" (by decide)

/-- C8: name sanitization is idempotent, for the case-preserving DDL variant
and for the upper-casing ERD variant alike. -/
theorem C8_sanitize_idempotent (x : String) :
    sanitize_ddl (sanitize_ddl x) = sanitize_ddl x ∧
    sanitize_erd (sanitize_erd x) = sanitize_erd x :=
  ⟨sanitize_ddl_idem x, sanitize_erd_idem x⟩

/-- C6: the Type Mapper is a total function whose output depends only on the
upper-cased input (case-insensitivity), and every input whose upper-cased
form is not a key of the type table maps to the fallback VARCHAR(255). -/
theorem C6_type_mapper (s : String) :
    map_to_mysql_type s = map_to_mysql_type (pyUpper s) ∧
    (pyUpper s ∉ MYSQL_TYPE_MAP.map Prod.fst → map_to_mysql_type s = "VARCHAR(255)") := by
  constructor
  · unfold map_to_mysql_type
    rw [pyUpper_idem]
  · intro h
    unfold map_to_mysql_type
    rw [lookup_eq_none h]
    rfl

/-- Witness for C6: an unrecognized type falls back to VARCHAR(255), and a
lower-case recognized type maps as its upper-cased form does. -/
theorem C6_type_mapper_witness :
    map_to_mysql_type "mystery" = "VARCHAR(255)" ∧
    map_to_mysql_type "integer" = map_to_mysql_type (pyUpper "integer") :=
  ⟨(C6_type_mapper "mystery").2 (by decide), (C6_type_mapper "integer").1⟩

/-- C9: both generators are deterministic functions of the table list alone
(two Metadata with equal tables, even with different session identifiers,
produce identical artifacts), and the DDL script is the concatenation of all
CREATE TABLE statements, then all ALTER TABLE foreign-key statements, then
all CREATE INDEX statements. -/
theorem C9_deterministic (md md' : Metadata) (h : md.tables = md'.tables) :
    generate_ddl md = generate_ddl md' ∧
    generate_mermaid md = generate_mermaid md' ∧
    generate_ddl md = pyJoin "\n\n" (md.tables.map _generate_create_table ++
      (md.tables.map _generate_foreign_keys).flatten ++
      (md.tables.map _generate_indexes).flatten) := by
  refine ⟨?_, ?_, rfl⟩
  · unfold generate_ddl
    rw [h]
  · unfold generate_mermaid
    rw [h]

def demoMdA : Metadata := { file_id := "runA", tables := [fkDemoTable] }

def demoMdB : Metadata := { file_id := "runB", tables := [fkDemoTable] }

/-- Witness for C9: two runs over the same tables but different session
identifiers produce identical DDL and ERD text. -/
theorem C9_deterministic_witness :
    generate_ddl demoMdA = generate_ddl demoMdB ∧
    generate_mermaid demoMdA = generate_mermaid demoMdB :=
  ⟨(C9_deterministic demoMdA demoMdB rfl).1, (C9_deterministic demoMdA demoMdB rfl).2.1⟩

theorem rel_lines_eq (t : Table) :
    relationship_lines t =
      (t.foreign_keys.filter (fun c => optTruthy c.references_table)).map
        (relationship_line t) := by
  unfold relationship_lines
  exact filterMap_ite (fun c : Column => optTruthy c.references_table)
    (fun c : Column => relationship_line t c) _

theorem rel_lines_len (t : Table) :
    (relationship_lines t).length =
      (t.foreign_keys.filter (fun c => optTruthy c.references_table)).length := by
  rw [rel_lines_eq, List.length_map]

/-- C5: the ERD output is the header, then every entity block in Metadata
table order (each with its column lines in declaration order), then every
relationship line; one relationship line is emitted per foreign-key column
whose references_table is truthy, with references_column never consulted. -/
theorem C5_erd_structure (md : Metadata) :
    generate_mermaid md = "erDiagram\n\n" ++
      String.join (md.tables.map _generate_entity) ++
      String.join (md.tables.map _generate_relationships) ∧
    (∀ t : Table, _generate_entity t = "    " ++ sanitize_erd t.name ++ " \x7b\n" ++
      String.join (t.columns.map (fun col => "        " ++ _generate_column_line col ++ "\n")) ++
      "    \x7d\n\n") ∧
    (∀ t : Table, relationship_lines t =
      (t.foreign_keys.filter (fun c => optTruthy c.references_table)).map
        (relationship_line t)) ∧
    (md.tables.map (fun t => (relationship_lines t).length)).sum =
      (md.tables.map
        (fun t => (t.foreign_keys.filter (fun c => optTruthy c.references_table)).length)).sum := by
  refine ⟨rfl, fun t => rfl, fun t => rel_lines_eq t, ?_⟩
  congr 1
  exact map_congr_mem _ _ _ (fun t _ => rel_lines_len t)

theorem ite_append_push {α : Type} (b : Prop) [Decidable b] (l : List α) (x : α) :
    (if b then l ++ [x] else l) = l ++ (if b then [x] else []) := by
  split <;> simp

theorem column_parts_eq (c : Column) :
    column_parts c = [sanitize_ddl c.name, map_to_mysql_type c.data_type] ++
      (if c.is_primary_key && AUTO_INCREMENT_TYPES.contains (pyUpper c.data_type)
        then ["AUTO_INCREMENT"] else []) ++
      (if !c.is_nullable then ["NOT NULL"] else []) ++
      (if c.is_unique then ["UNIQUE"] else []) ++
      (if optTruthy c.default_value
        then ["DEFAULT " ++ c.default_value.getD ""] else []) := by
  unfold column_parts
  rw [ite_append_push, ite_append_push, ite_append_push, ite_append_push]

theorem erd_constraints_eq (c : Column) :
    erd_constraints c =
      (if c.is_primary_key && AUTO_INCREMENT_TYPES.contains (pyUpper c.data_type)
        then ["AUTO_INCREMENT"] else []) ++
      (if !c.is_nullable then ["NOT NULL"] else []) ++
      (if c.is_unique then ["UNIQUE"] else []) ++
      (if optTruthy c.default_value
        then ["DEFAULT " ++ c.default_value.getD ""] else []) ++
      (if c.is_foreign_key then ["INDEX"] else []) := by
  unfold erd_constraints
  rw [ite_append_push, ite_append_push, ite_append_push, ite_append_push, ite_append_push]
  simp only [List.nil_append]

theorem default_part_ne (dv : String) : "DEFAULT " ++ dv ≠ "AUTO_INCREMENT" := by
  intro h
  have hd := congrArg String.data h
  rw [string_data_append] at hd
  have h1 : "DEFAULT ".data = 'D' :: "EFAULT ".data := rfl
  have h2 : "AUTO_INCREMENT".data = 'A' :: "UTO_INCREMENT".data := rfl
  rw [h1, h2, List.cons_append] at hd
  injection hd with hh _
  exact absurd hh (by decide)

theorem mem_ite_singleton {α : Type} (a x : α) (b : Prop) [Decidable b] :
    a ∈ (if b then [x] else []) ↔ b ∧ a = x := by
  split
  case isTrue h => simp [h]
  case isFalse h => simp [h]

theorem count_ite_singleton {α : Type} [BEq α] (a x : α) (b : Prop) [Decidable b] :
    (if b then [x] else []).count a = if b then (if x == a then 1 else 0) else 0 := by
  split <;> simp [List.count_cons, List.count_nil]

theorem contains_allow_list (x : String) :
    AUTO_INCREMENT_TYPES.contains x = true ↔ x ∈ ["INTEGER", "INT", "BIGINT"] := by
  unfold AUTO_INCREMENT_TYPES
  simp

theorem AI_mem_column_parts (c : Column) (hname : sanitize_ddl c.name ≠ "AUTO_INCREMENT") :
    ("AUTO_INCREMENT" ∈ column_parts c ↔
      (c.is_primary_key && AUTO_INCREMENT_TYPES.contains (pyUpper c.data_type)) = true) := by
  have e1 : ¬ (("AUTO_INCREMENT" : String) = sanitize_ddl c.name) := fun h => hname h.symm
  have e2 : ¬ (("AUTO_INCREMENT" : String) = map_to_mysql_type c.data_type) :=
    fun h => (map_type_ne_auto_increment c.data_type) h.symm
  have e3 : ¬ (("AUTO_INCREMENT" : String) = "DEFAULT " ++ c.default_value.getD "") :=
    fun h => (default_part_ne _) h.symm
  have e4 : ¬ (("AUTO_INCREMENT" : String) = "NOT NULL") := by decide
  have e5 : ¬ (("AUTO_INCREMENT" : String) = "UNIQUE") := by decide
  rw [column_parts_eq]
  simp only [List.mem_append, mem_ite_singleton, List.mem_cons, List.mem_singleton,
    List.not_mem_nil]
  simp [e1, e2, e3, e4, e5]

theorem AI_mem_erd_constraints (c : Column) :
    ("AUTO_INCREMENT" ∈ erd_constraints c ↔
      (c.is_primary_key && AUTO_INCREMENT_TYPES.contains (pyUpper c.data_type)) = true) := by
  have e3 : ¬ (("AUTO_INCREMENT" : String) = "DEFAULT " ++ c.default_value.getD "") :=
    fun h => (default_part_ne _) h.symm
  have e4 : ¬ (("AUTO_INCREMENT" : String) = "NOT NULL") := by decide
  have e5 : ¬ (("AUTO_INCREMENT" : String) = "UNIQUE") := by decide
  have e6 : ¬ (("AUTO_INCREMENT" : String) = "INDEX") := by decide
  rw [erd_constraints_eq]
  simp only [List.mem_append, mem_ite_singleton, List.not_mem_nil]
  simp [e3, e4, e5, e6]

theorem AI_count_column_parts (c : Column) (hname : sanitize_ddl c.name ≠ "AUTO_INCREMENT") :
    (column_parts c).count "AUTO_INCREMENT" =
      (if (c.is_primary_key && AUTO_INCREMENT_TYPES.contains (pyUpper c.data_type)) = true
        then 1 else 0) := by
  have b1 : (sanitize_ddl c.name == "AUTO_INCREMENT") = false := beq_false_of_ne hname
  have b2 : (map_to_mysql_type c.data_type == "AUTO_INCREMENT") = false :=
    beq_false_of_ne (map_type_ne_auto_increment c.data_type)
  have b3 : (("DEFAULT " ++ c.default_value.getD "") == "AUTO_INCREMENT") = false :=
    beq_false_of_ne (default_part_ne _)
  have b4 : (("NOT NULL" : String) == "AUTO_INCREMENT") = false := by decide
  have b5 : (("UNIQUE" : String) == "AUTO_INCREMENT") = false := by decide
  rw [column_parts_eq]
  simp only [List.count_append, count_ite_singleton]
  simp [List.count_cons, List.count_nil, b1, b2, b3, b4, b5]

/-- C10: a primary-key column of abstract type SMALLINT maps to the MySQL
type SMALLINT yet never receives AUTO_INCREMENT, in the DDL column parts or
in the ERD constraint tags; in both generators the AUTO_INCREMENT allow-list
is exactly the case-insensitive set INTEGER, INT, BIGINT. -/
theorem C10_smallint_no_auto_increment (col : Column)
    (htype : pyUpper col.data_type = "SMALLINT")
    (hname : sanitize_ddl col.name ≠ "AUTO_INCREMENT") :
    map_to_mysql_type col.data_type = "SMALLINT" ∧
    "AUTO_INCREMENT" ∉ column_parts col ∧
    "AUTO_INCREMENT" ∉ erd_constraints col ∧
    (∀ c : Column, ("AUTO_INCREMENT" ∈ erd_constraints c ↔
      c.is_primary_key = true ∧ pyUpper c.data_type ∈ ["INTEGER", "INT", "BIGINT"])) ∧
    (∀ c : Column, sanitize_ddl c.name ≠ "AUTO_INCREMENT" →
      ("AUTO_INCREMENT" ∈ column_parts c ↔
        c.is_primary_key = true ∧ pyUpper c.data_type ∈ ["INTEGER", "INT", "BIGINT"])) := by
  have herd : ∀ c : Column, ("AUTO_INCREMENT" ∈ erd_constraints c ↔
      c.is_primary_key = true ∧ pyUpper c.data_type ∈ ["INTEGER", "INT", "BIGINT"]) := by
    intro c
    rw [AI_mem_erd_constraints c, Bool.and_eq_true, contains_allow_list]
  have hddl : ∀ c : Column, sanitize_ddl c.name ≠ "AUTO_INCREMENT" →
      ("AUTO_INCREMENT" ∈ column_parts c ↔
        c.is_primary_key = true ∧ pyUpper c.data_type ∈ ["INTEGER", "INT", "BIGINT"]) := by
    intro c hc
    rw [AI_mem_column_parts c hc, Bool.and_eq_true, contains_allow_list]
  have hsm : pyUpper col.data_type ∉ (["INTEGER", "INT", "BIGINT"] : List String) := by
    rw [htype]; decide
  refine ⟨?_, ?_, ?_, herd, hddl⟩
  · have hl : MYSQL_TYPE_MAP.lookup (pyUpper col.data_type) = some "SMALLINT" := by
      rw [htype]; decide
    unfold map_to_mysql_type
    rw [hl]
    rfl
  · intro hmem
    exact hsm ((hddl col hname).mp hmem).2
  · intro hmem
    exact hsm ((herd col).mp hmem).2

/-- Witness for C10: a concrete SMALLINT primary-key column. -/
theorem C10_smallint_no_auto_increment_witness :
    map_to_mysql_type "SmallInt" = "SMALLINT" ∧
    "AUTO_INCREMENT" ∉ column_parts
      { name := "n", data_type := "SmallInt", is_primary_key := true } ∧
    "AUTO_INCREMENT" ∉ erd_constraints
      { name := "n", data_type := "SmallInt", is_primary_key := true } := by
  have h := C10_smallint_no_auto_increment
    { name := "n", data_type := "SmallInt", is_primary_key := true }
    (by decide) (by decide)
  exact ⟨h.1, h.2.1, h.2.2.1⟩

theorem infix_append_left (pre : String) {s : String} {pat : List Char}
    (h : ∃ a b, s.data = a ++ pat ++ b) :
    ∃ a b, (pre ++ s).data = a ++ pat ++ b := by
  obtain ⟨a, b, hab⟩ := h
  refine ⟨pre.data ++ a, b, ?_⟩
  rw [string_data_append, hab]
  simp [List.append_assoc]

theorem pyJoin_infix_of_mem {sep x : String} {l : List String} {pat : List Char}
    (hx : x ∈ l) (h : ∃ a b, x.data = a ++ pat ++ b) :
    ∃ a b, (pyJoin sep l).data = a ++ pat ++ b := by
  obtain ⟨A, B, hAB⟩ := mem_pyJoin_parts sep l x hx
  obtain ⟨a, b, hab⟩ := h
  refine ⟨A ++ a, b ++ B, ?_⟩
  rw [hAB, hab]
  simp [List.append_assoc]

theorem sum_AI_single_pk : ∀ (l : List Column) (pk : Column),
    (∀ col ∈ l, sanitize_ddl col.name ≠ "AUTO_INCREMENT") →
    l.filter (fun c => c.is_primary_key) = [pk] →
    AUTO_INCREMENT_TYPES.contains (pyUpper pk.data_type) = true →
    (l.map (fun c => (column_parts c).count "AUTO_INCREMENT")).sum = 1 := by
  intro l
  induction l with
  | nil =>
    intro pk _ hfil _
    simp at hfil
  | cons c t ih =>
    intro pk hname hfil htype
    rw [List.filter_cons] at hfil
    by_cases hc : c.is_primary_key = true
    · rw [if_pos (by simpa using hc)] at hfil
      have hinj := (List.cons.injEq c (t.filter (fun c => c.is_primary_key)) pk []).mp hfil
      have hcpk : c = pk := hinj.1
      have htf : t.filter (fun c => c.is_primary_key) = [] := hinj.2
      rw [List.map_cons, List.sum_cons]
      have hcount : (column_parts c).count "AUTO_INCREMENT" = 1 := by
        rw [AI_count_column_parts c (hname c (List.mem_cons_self c t)), if_pos]
        rw [Bool.and_eq_true]
        exact ⟨hc, by rw [hcpk]; exact htype⟩
      have hzero : (t.map (fun c => (column_parts c).count "AUTO_INCREMENT")).sum = 0 := by
        apply List.sum_eq_zero
        intro x hx
        obtain ⟨d, hd, rfl⟩ := List.mem_map.mp hx
        rw [AI_count_column_parts d (hname d (List.mem_cons_of_mem c hd)), if_neg]
        intro hcond
        have hdpk : d.is_primary_key = true := ((Bool.and_eq_true _ _).mp hcond).1
        have hnil := List.filter_eq_nil_iff.mp htf d hd
        simp [hdpk] at hnil
      omega
    · rw [if_neg (by simpa using hc)] at hfil
      rw [List.map_cons, List.sum_cons]
      have h0 : (column_parts c).count "AUTO_INCREMENT" = 0 := by
        rw [AI_count_column_parts c (hname c (List.mem_cons_self c t)), if_neg]
        intro hcond
        exact hc ((Bool.and_eq_true _ _).mp hcond).1
      rw [h0, ih pk (fun col hcol => hname col (List.mem_cons_of_mem c hcol)) hfil htype]

theorem AI_in_create_table (table : Table) (pk : Column) (hpk : pk ∈ table.columns)
    (hAI : "AUTO_INCREMENT" ∈ column_parts pk) :
    ∃ a b, (_generate_create_table table).data = a ++ "AUTO_INCREMENT".data ++ b := by
  have h1 : ∃ a b, (_generate_column_definition pk).data = a ++ "AUTO_INCREMENT".data ++ b := by
    unfold _generate_column_definition
    exact pyJoin_infix_of_mem hAI ⟨[], [], by simp⟩
  have h2 : ∃ a b, ("    " ++ _generate_column_definition pk).data =
      a ++ "AUTO_INCREMENT".data ++ b := infix_append_left _ h1
  have hline : ("    " ++ _generate_column_definition pk) ∈ create_table_col_defs table := by
    unfold create_table_col_defs
    have hm : ("    " ++ _generate_column_definition pk) ∈
        table.columns.map (fun col => "    " ++ _generate_column_definition col) :=
      List.mem_map_of_mem _ hpk
    split
    · exact hm
    · exact List.mem_append_left _ hm
  have h3 : ∃ a b, (pyJoin ",\n" (create_table_col_defs table)).data =
      a ++ "AUTO_INCREMENT".data ++ b := pyJoin_infix_of_mem hline h2
  unfold _generate_create_table
  exact pyJoin_infix_of_mem (by simp) h3

/-- C3: a DDL column definition carries AUTO_INCREMENT exactly when the
column is a primary key whose abstract type upper-cases to a member of the
exact allow-list INTEGER, INT, BIGINT; for a table whose only primary-key
column has such a type, the AUTO_INCREMENT token appears exactly once across
all column definitions, on that column's line, and hence in the CREATE TABLE
text. -/
theorem C3_auto_increment (table : Table)
    (hname : ∀ col ∈ table.columns, sanitize_ddl col.name ≠ "AUTO_INCREMENT") :
    (∀ col ∈ table.columns, (column_parts col).count "AUTO_INCREMENT" =
      (if (col.is_primary_key && AUTO_INCREMENT_TYPES.contains (pyUpper col.data_type)) = true
        then 1 else 0)) ∧
    (∀ col ∈ table.columns, ("AUTO_INCREMENT" ∈ column_parts col ↔
      col.is_primary_key = true ∧ pyUpper col.data_type ∈ ["INTEGER", "INT", "BIGINT"])) ∧
    (∀ pk : Column, table.columns.filter (fun c => c.is_primary_key) = [pk] →
      AUTO_INCREMENT_TYPES.contains (pyUpper pk.data_type) = true →
      ((table.columns.map (fun c => (column_parts c).count "AUTO_INCREMENT")).sum = 1 ∧
      (column_parts pk).count "AUTO_INCREMENT" = 1 ∧
      ∃ a b, (_generate_create_table table).data = a ++ "AUTO_INCREMENT".data ++ b)) := by
  refine ⟨?_, ?_, ?_⟩
  · intro col hcol
    exact AI_count_column_parts col (hname col hcol)
  · intro col hcol
    rw [AI_mem_column_parts col (hname col hcol), Bool.and_eq_true, contains_allow_list]
  · intro pk hfil htype
    have hpkfil : pk ∈ table.columns.filter (fun c => c.is_primary_key) := by
      rw [hfil]; simp
    have hpkmem : pk ∈ table.columns := List.mem_of_mem_filter hpkfil
    have hpkflag : pk.is_primary_key = true := by
      simpa using List.of_mem_filter hpkfil
    have hcnt : (column_parts pk).count "AUTO_INCREMENT" = 1 := by
      rw [AI_count_column_parts pk (hname pk hpkmem), if_pos]
      rw [Bool.and_eq_true]
      exact ⟨hpkflag, htype⟩
    refine ⟨sum_AI_single_pk table.columns pk hname hfil htype, hcnt, ?_⟩
    apply AI_in_create_table table pk hpkmem
    exact (AI_mem_column_parts pk (hname pk hpkmem)).mpr
      ((Bool.and_eq_true _ _).mpr ⟨hpkflag, htype⟩)

/-- A table whose only primary-key column has an integer-family type. -/
def c3Table : Table := { name := "w3", columns := [
  { name := "id", data_type := "INTEGER", is_primary_key := true },
  { name := "note", data_type := "TEXT" }] }

/-- Witness for C3: on `c3Table` the AUTO_INCREMENT token count across all
column definitions is one, and it sits on the primary-key column's line. -/
theorem C3_auto_increment_witness :
    (c3Table.columns.map (fun c => (column_parts c).count "AUTO_INCREMENT")).sum = 1 ∧
    (column_parts { name := "id", data_type := "INTEGER", is_primary_key := true }).count
      "AUTO_INCREMENT" = 1 := by
  have h := (C3_auto_increment c3Table (by decide)).2.2
    { name := "id", data_type := "INTEGER", is_primary_key := true } (by decide) (by decide)
  exact ⟨h.1, h.2.1⟩

theorem good_ne_space (c : Char) (h : goodChar c = true) : c ≠ ' ' := by
  intro he
  subst he
  exact absurd h (by decide)

theorem nospace_append_space_inj : ∀ (nm p1 : List Char),
    (∀ c ∈ nm, c ≠ ' ') → (∀ c ∈ p1, c ≠ ' ') →
    ∀ x y, nm ++ ' ' :: x = p1 ++ ' ' :: y → nm = p1 ∧ x = y := by
  intro nm
  induction nm with
  | nil =>
    intro p1 _ hp1 x y h
    cases p1 with
    | nil =>
      rw [List.nil_append, List.nil_append] at h
      injection h with _ h2
      exact ⟨rfl, h2⟩
    | cons d q =>
      rw [List.nil_append, List.cons_append] at h
      injection h with h1 _
      exact absurd h1.symm (hp1 d (List.mem_cons_self d q))
  | cons c nmt ih =>
    intro p1 hnm hp1 x y h
    cases p1 with
    | nil =>
      rw [List.nil_append, List.cons_append] at h
      injection h with h1 _
      exact absurd h1 (hnm c (List.mem_cons_self c nmt))
    | cons d q =>
      rw [List.cons_append, List.cons_append] at h
      injection h with h1 h2
      obtain ⟨hq, hxy⟩ := ih q (fun a ha => hnm a (List.mem_cons_of_mem c ha))
        (fun a ha => hp1 a (List.mem_cons_of_mem d ha)) x y h2
      exact ⟨by rw [h1, hq], hxy⟩

/-- Recognizer for the primary-key constraint line inside a CREATE TABLE
statement: the line starts with the fixed text `    PRIMARY KEY (`. -/
def is_pk_line (l : String) : Bool :=
  "    PRIMARY KEY (".data.isPrefixOf l.data

theorem is_pk_line_pk_constraint (table : Table) : is_pk_line (pk_constraint table) = true := by
  unfold is_pk_line pk_constraint
  rw [List.isPrefixOf_iff_prefix]
  refine ⟨(pyJoin ", " (table.primary_keys.map (fun pk => sanitize_ddl pk.name))).data ++
    ")".data, ?_⟩
  simp [string_data_append, List.append_assoc]

theorem column_parts_head (col : Column) : ∃ rest, column_parts col =
    sanitize_ddl col.name :: map_to_mysql_type col.data_type :: rest := by
  rw [column_parts_eq]
  refine ⟨(((if col.is_primary_key && AUTO_INCREMENT_TYPES.contains (pyUpper col.data_type)
      then ["AUTO_INCREMENT"] else []) ++
      (if !col.is_nullable then ["NOT NULL"] else [])) ++
      (if col.is_unique then ["UNIQUE"] else [])) ++
      (if optTruthy col.default_value
        then ["DEFAULT " ++ col.default_value.getD ""] else []), ?_⟩
  simp [List.append_assoc]

theorem sanitize_ddl_nospace (s : String) : ∀ c ∈ (sanitize_ddl s).data, c ≠ ' ' :=
  fun c hc => good_ne_space c (mem_sanitize_ddl_good s c hc)

theorem is_pk_line_col_line (col : Column) :
    is_pk_line ("    " ++ _generate_column_definition col) = false := by
  by_contra hcon
  have htrue : is_pk_line ("    " ++ _generate_column_definition col) = true := by
    cases h : is_pk_line ("    " ++ _generate_column_definition col) with
    | true => rfl
    | false => exact absurd h hcon
  unfold is_pk_line at htrue
  rw [List.isPrefixOf_iff_prefix] at htrue
  obtain ⟨t, ht⟩ := htrue
  obtain ⟨rest, hparts⟩ := column_parts_head col
  have hdefn : _generate_column_definition col =
      sanitize_ddl col.name ++ " " ++
        pyJoin " " (map_to_mysql_type col.data_type :: rest) := by
    unfold _generate_column_definition
    rw [hparts]
    exact pyJoin_cons " " _ _ (by simp)
  rw [string_data_append, hdefn] at ht
  have hlit : "    PRIMARY KEY (".data =
      "    ".data ++ ("PRIMARY".data ++ ' ' :: "KEY (".data) := rfl
  rw [hlit, List.append_assoc] at ht
  have hmid := List.append_cancel_left ht
  rw [string_data_append, string_data_append] at hmid
  have hshape : ("PRIMARY".data ++ ' ' :: "KEY (".data) ++ t =
      "PRIMARY".data ++ ' ' :: ("KEY (".data ++ t) := by
    simp [List.append_assoc]
  rw [hshape] at hmid
  have hsp : (" " : String).data = [' '] := rfl
  rw [hsp, List.append_assoc, List.singleton_append] at hmid
  obtain ⟨_, htail⟩ := nospace_append_space_inj "PRIMARY".data (sanitize_ddl col.name).data
    (by decide) (sanitize_ddl_nospace col.name) _ _ hmid
  cases rest with
  | nil =>
    have hsingle : pyJoin " " [map_to_mysql_type col.data_type] =
        map_to_mysql_type col.data_type := rfl
    rw [hsingle] at htail
    have hk : "KEY (".data = 'K' :: "EY (".data := rfl
    rw [hk, List.cons_append] at htail
    exact map_type_not_K_cons col.data_type _ htail.symm
  | cons r0 rtail =>
    have hjoin : pyJoin " " (map_to_mysql_type col.data_type :: r0 :: rtail) =
        map_to_mysql_type col.data_type ++ " " ++ pyJoin " " (r0 :: rtail) := rfl
    rw [hjoin, string_data_append, string_data_append, hsp, List.append_assoc,
      List.singleton_append] at htail
    have hk : "KEY (".data = 'K' :: "EY (".data := rfl
    rw [hk, List.cons_append] at htail
    cases hty : (map_to_mysql_type col.data_type).data with
    | nil => exact map_type_ne_nil col.data_type hty
    | cons c0 cs =>
      rw [hty, List.cons_append] at htail
      injection htail with h1 _
      rw [← h1] at hty
      exact map_type_not_K_cons col.data_type _ hty

/-- C4: the primary-key view is the primary-key-flagged columns in
declaration order; when it is nonempty the CREATE TABLE body is the column
definitions followed by exactly one `PRIMARY KEY (...)` line listing those
columns in order, inside the same statement, and when it is empty no such
line exists. -/
theorem C4_primary_key (table : Table) :
    table.primary_keys = table.columns.filter (fun c => c.is_primary_key) ∧
    pk_constraint table = "    PRIMARY KEY (" ++
      pyJoin ", " (table.primary_keys.map (fun pk => sanitize_ddl pk.name)) ++ ")" ∧
    (table.primary_keys ≠ [] →
      (create_table_col_defs table =
        table.columns.map (fun col => "    " ++ _generate_column_definition col) ++
          [pk_constraint table] ∧
      ((create_table_col_defs table).filter is_pk_line).length = 1)) ∧
    (table.primary_keys = [] →
      (create_table_col_defs table =
        table.columns.map (fun col => "    " ++ _generate_column_definition col) ∧
      ((create_table_col_defs table).filter is_pk_line).length = 0)) := by
  have hfilmap : (table.columns.map
      (fun col => "    " ++ _generate_column_definition col)).filter is_pk_line = [] := by
    apply List.filter_eq_nil_iff.mpr
    intro x hx
    obtain ⟨c, _, rfl⟩ := List.mem_map.mp hx
    simp [is_pk_line_col_line c]
  refine ⟨rfl, rfl, ?_, ?_⟩
  · intro hne
    have hempty : table.primary_keys.isEmpty = false := by
      cases h : table.primary_keys with
      | nil => exact absurd h hne
      | cons a l => rfl
    have hdefs : create_table_col_defs table =
        table.columns.map (fun col => "    " ++ _generate_column_definition col) ++
          [pk_constraint table] := by
      unfold create_table_col_defs
      rw [hempty]
      simp
    refine ⟨hdefs, ?_⟩
    rw [hdefs, List.filter_append, hfilmap, List.nil_append, List.filter_cons,
      if_pos (by simpa using is_pk_line_pk_constraint table)]
    rfl
  · intro heq
    have hempty : table.primary_keys.isEmpty = true := by
      rw [heq]
      rfl
    have hdefs : create_table_col_defs table =
        table.columns.map (fun col => "    " ++ _generate_column_definition col) := by
      unfold create_table_col_defs
      rw [hempty]
      simp
    exact ⟨hdefs, by rw [hdefs, hfilmap]; rfl⟩

/-- Witness for C4: on `c3Table` (one primary key) the body is the column
definitions plus exactly one primary-key constraint line. -/
theorem C4_primary_key_witness :
    create_table_col_defs c3Table =
      c3Table.columns.map (fun col => "    " ++ _generate_column_definition col) ++
        [pk_constraint c3Table] ∧
    ((create_table_col_defs c3Table).filter is_pk_line).length = 1 :=
  (C4_primary_key c3Table).2.2.1 (by decide)

/-- The CREATE INDEX statement text as a function of the sanitized column
name alone (the statement mentions the column only through its sanitized
name). -/
def index_stmt_of (table : Table) (n : String) : String :=
  "CREATE INDEX idx_" ++ sanitize_ddl table.name ++ "_" ++ n ++ " ON " ++
    sanitize_ddl table.name ++ "(" ++ n ++ ");"

theorem index_statement_factor (table : Table) (c : Column) :
    index_statement table c = index_stmt_of table (sanitize_ddl c.name) := rfl

theorem index_stmt_of_inj (table : Table) (n1 n2 : String)
    (h1 : ∀ c ∈ n1.data, c ≠ ' ') (h2 : ∀ c ∈ n2.data, c ≠ ' ')
    (h : index_stmt_of table n1 = index_stmt_of table n2) : n1 = n2 := by
  unfold index_stmt_of at h
  have hd := congrArg String.data h
  simp only [string_data_append, List.append_assoc] at hd
  have hd1 := List.append_cancel_left hd
  have hd2 := List.append_cancel_left hd1
  have hd3 := List.append_cancel_left hd2
  have hsplit := nospace_append_space_inj n1.data n2.data h1 h2 _ _ hd3
  exact string_eq_of_data n1 n2 hsplit.1

theorem count_map_eq_count {α β : Type} [DecidableEq α] [DecidableEq β] (f : α → β) (x : α) :
    ∀ (l : List α), (∀ a ∈ l, f a = f x → a = x) → (l.map f).count (f x) = l.count x := by
  intro l
  induction l with
  | nil => intro _; rfl
  | cons c t ih =>
    intro hinj
    rw [List.map_cons, List.count_cons, List.count_cons]
    rw [ih (fun a ha => hinj a (List.mem_cons_of_mem c ha))]
    by_cases hfc : f c = f x
    · have hc : c = x := hinj c (List.mem_cons_self c t) hfc
      simp [hfc, hc]
    · have hc : ¬ (c = x) := fun he => hfc (by rw [he])
      simp [hfc, hc]

theorem count_index_statement (table : Table) (col : Column)
    (hmem : col ∈ table.foreign_keys)
    (hsan : (table.foreign_keys.map (fun c => sanitize_ddl c.name)).Nodup) :
    (_generate_indexes table).count (index_statement table col) = 1 := by
  unfold _generate_indexes
  have hnodup : table.foreign_keys.Nodup := hsan.of_map _
  have hinj : ∀ a ∈ table.foreign_keys,
      index_statement table a = index_statement table col → a = col := by
    intro a ha he
    have hsa : sanitize_ddl a.name = sanitize_ddl col.name := by
      apply index_stmt_of_inj table _ _ (sanitize_ddl_nospace a.name)
        (sanitize_ddl_nospace col.name)
      rw [← index_statement_factor, ← index_statement_factor]
      exact he
    exact List.inj_on_of_nodup_map hsan ha hmem hsa
  rw [count_map_eq_count (index_statement table) col _ hinj]
  exact List.count_eq_one_of_mem hnodup hmem

/-- C2: a foreign-key column whose references_column is not set contributes
no ALTER TABLE foreign-key statement (every emitted statement stems from a
reference-complete column, which that column is not), yet index generation,
which applies no completeness check, still emits exactly one CREATE INDEX
statement for it; both behaviors are ordinary emission, not errors. -/
theorem C2_incomplete_fk (table : Table) (col : Column)
    (hmem : col ∈ table.foreign_keys) (hmissing : optTruthy col.references_column = false)
    (hsan : (table.foreign_keys.map (fun c => sanitize_ddl c.name)).Nodup) :
    _generate_foreign_keys table =
      ((List.enumFrom 1 table.foreign_keys).filter (fun p => hasCompleteRef p.2)).map
        (fun p => fk_statement table p.1 p.2) ∧
    (∀ p ∈ (List.enumFrom 1 table.foreign_keys).filter (fun p => hasCompleteRef p.2),
      p.2 ≠ col) ∧
    _generate_indexes table = table.foreign_keys.map (index_statement table) ∧
    (_generate_indexes table).count (index_statement table col) = 1 := by
  refine ⟨generate_fk_eq table, ?_, rfl, count_index_statement table col hmem hsan⟩
  intro p hp he
  have hq : hasCompleteRef p.2 = true := by
    have hq0 := List.of_mem_filter hp
    simpa using hq0
  rw [he] at hq
  unfold hasCompleteRef at hq
  rw [hmissing] at hq
  simp at hq

/-- Witness for C2: in `fkDemoTable` the incomplete foreign-key column `a`
still gets exactly one CREATE INDEX statement. -/
theorem C2_incomplete_fk_witness :
    (_generate_indexes fkDemoTable).count
      (index_statement fkDemoTable
        { name := "a", data_type := "INT", is_foreign_key := true,
          references_table := some "p" }) = 1 :=
  (C2_incomplete_fk fkDemoTable
    { name := "a", data_type := "INT", is_foreign_key := true,
      references_table := some "p" }
    (by decide) (by decide) (by decide)).2.2.2

theorem clean_type_no_bad (t : String) :
    ∀ c ∈ (clean_type t).data, c ≠ '(' ∧ c ≠ ')' ∧ c ≠ ',' := by
  have hfold : ∀ l : List Char, ∀ c ∈ l.foldr (fun c acc =>
      if c == '(' then '_' :: acc
      else if c == ')' then acc
      else if c == ',' then '_' :: acc
      else c :: acc) [], c ≠ '(' ∧ c ≠ ')' ∧ c ≠ ',' := by
    intro l
    induction l with
    | nil =>
      intro c hc
      cases hc
    | cons d ds ih =>
      intro c hc
      rw [List.foldr_cons] at hc
      by_cases hb1 : (d == '(') = true
      · rw [if_pos hb1] at hc
        rcases List.mem_cons.mp hc with rfl | hm
        · exact ⟨by decide, by decide, by decide⟩
        · exact ih c hm
      · rw [if_neg hb1] at hc
        by_cases hb2 : (d == ')') = true
        · rw [if_pos hb2] at hc
          exact ih c hc
        · rw [if_neg hb2] at hc
          by_cases hb3 : (d == ',') = true
          · rw [if_pos hb3] at hc
            rcases List.mem_cons.mp hc with rfl | hm
            · exact ⟨by decide, by decide, by decide⟩
            · exact ih c hm
          · rw [if_neg hb3] at hc
            rcases List.mem_cons.mp hc with rfl | hm
            · exact ⟨fun he => hb1 (beq_iff_eq.mpr he), fun he => hb2 (beq_iff_eq.mpr he),
                fun he => hb3 (beq_iff_eq.mpr he)⟩
            · exact ih c hm
  intro c hc
  exact hfold t.data c hc

/-- The claim's wording of the type-token cleaning: parentheses and commas
each replaced by underscore. Written from the spec sentence, for comparison
with the source-derived `clean_type`. -/
def spec_clean_type (t : String) : String :=
  String.mk (t.data.map (fun c => if c == '(' || c == ')' || c == ',' then '_' else c))

/-- C7 counterexample: for the dialect type VARCHAR(255) the code produces
the token VARCHAR_255 (the closing parenthesis is removed, not replaced),
while replacing parentheses and commas by underscores would produce
VARCHAR_255_. -/
theorem C7_counterexample :
    clean_type (map_to_mysql_type "VARCHAR") = "VARCHAR_255" ∧
    spec_clean_type (map_to_mysql_type "VARCHAR") = "VARCHAR_255_" ∧
    clean_type (map_to_mysql_type "VARCHAR") ≠ spec_clean_type (map_to_mysql_type "VARCHAR") ∧
    _generate_column_line { name := "v", data_type := "VARCHAR" } = "VARCHAR_255 V" := by
  decide

/-- C7 (amended): the ERD column line starts with the type token obtained
from the Type Mapper's dialect type by replacing opening parentheses and
commas with underscore and removing closing parentheses, so the token
contains no parenthesis or comma. -/
theorem C7_erd_type_token (col : Column) :
    (∃ rest, _generate_column_line col =
      clean_type (map_to_mysql_type col.data_type) ++ " " ++ rest) ∧
    (∀ c ∈ (clean_type (map_to_mysql_type col.data_type)).data,
      c ≠ '(' ∧ c ≠ ')' ∧ c ≠ ',') := by
  refine ⟨⟨sanitize_erd col.name ++ key_marker col ++
    (if (erd_constraints col).isEmpty then ""
      else " \"" ++ pyJoin ", " (erd_constraints col) ++ "\""), ?_⟩, clean_type_no_bad _⟩
  apply string_eq_of_data
  simp [_generate_column_line, string_data_append, List.append_assoc]

/-- Witness for C7: the concrete ERD line of a DECIMAL column starts with
the cleaned token DECIMAL_18_2. -/
theorem C7_erd_type_token_witness :
    ∃ rest, _generate_column_line { name := "v", data_type := "DECIMAL" } =
      clean_type (map_to_mysql_type "DECIMAL") ++ " " ++ rest :=
  (C7_erd_type_token { name := "v", data_type := "DECIMAL" }).1
